import Mathlib

/-!
Verification of the order/payment lifecycle of the Mythic AI Store bot
(src/app.py): a shallow embedding of the catalog, the order store, the
NowPayments adapter and the handlers, together with theorems settling the
specification claims about the state machine.

Times are passed explicitly (the source reads the wall clock via
time.time()); network sends are modelled as emitted effects; the HMAC
primitive is a parameter of the webhook handler.
-/

namespace MythicStore

/-- Invoice payload: the JSON dict stored in the `invoice` column of an
order, restricted to the keys the code reads. Absent keys are `none`
(matching dict.get returning None). -/
structure Invoice where
  id : Option String := none
  pay_url : Option String := none
  invoice_url : Option String := none
  url : Option String := none
  status : Option String := none
  price_amount : Option ℚ := none
  price_currency : Option String := none
  order_id : Option String := none
deriving DecidableEq

/-- The empty dict `\x7b\x7d` used by `o.get("invoice") or \x7b\x7d`. -/
def emptyInvoice : Invoice := {}

/-- A NowPayments IPN notification body, restricted to the keys read by
`nowpayments_webhook`. -/
structure Notification where
  order_id : Option String := none
  orderId : Option String := none
  purchase_id : Option String := none
  status : Option String := none
  payment_status : Option String := none
  invoice : Option Invoice := none
  price_amount : Option ℚ := none
  pay_amount : Option ℚ := none
deriving DecidableEq

/-- The opaque payload passed as `tx_info` to `mark_order_paid_db`:
the whole webhook body, the stored invoice dict (check_paid), or the
simulated payload of `pay_simulate`. -/
inductive TxInfo where
  | fromNotification (data : Notification)
  | fromInvoice (inv : Invoice)
  | fromSim (order_id : String)
deriving DecidableEq

/-- One row of the `orders` table. -/
structure OrderRec where
  order_id : String
  user_id : Int
  product_id : String
  price : ℚ
  currency : String
  status : String
  invoice : Option Invoice
  created_at : Nat
  paid_at : Option Nat
  tx_info : Option TxInfo
deriving DecidableEq

/-- A catalog entry of `PACKS`. -/
structure Pack where
  id : String
  title : String
  description : String
  type : String
  demo_url : String
  deliver_url : String
deriving DecidableEq

/-- Association-list lookup, modelling Python dict `.get`. -/
def lookup {α : Type} (l : List (String × α)) (k : String) : Option α :=
  (l.find? (fun p => p.1 == k)).map Prod.snd

/-- The `PRICES` dict. -/
def PRICES : List (String × ℚ) :=
  [("face_pack", 10), ("love_pack", 10), ("planets_pack", 10),
   ("video1", 5), ("video2", 5), ("video3", 5)]

/-- The `PACKS` dict. -/
def PACKS : List (String × Pack) :=
  [("face_pack",
    { id := "face_pack", title := "Face Pack",
      description := "AI Faces Collection", type := "image",
      demo_url := "https://drive.google.com/uc?export=download&id=1BLOOQgUDGlsrz_gNS0z9aCcHdtD1L_-0",
      deliver_url := "https://drive.google.com/uc?export=download&id=1FY77eK4EIWMYP3UT37dP_q1Jt9smdPqx" }),
   ("love_pack",
    { id := "love_pack", title := "Love Pack",
      description := "Romantic AI Images", type := "image",
      demo_url := "https://drive.google.com/uc?export=download&id=1BLOOQgUDGlsrz_gNS0z9aCcHdtD1L_-0",
      deliver_url := "https://drive.google.com/uc?export=download&id=1vtYcZmq5QHAJSlCnUutneAllL75Kxfbw" }),
   ("planets_pack",
    { id := "planets_pack", title := "Planets Pack",
      description := "AI Generated Planets", type := "image",
      demo_url := "https://drive.google.com/uc?export=download&id=1BLOOQgUDGlsrz_gNS0z9aCcHdtD1L_-0",
      deliver_url := "https://drive.google.com/uc?export=download&id=108HXs4tBjXRRm5z2To6VQthW6HtLIeyO" }),
   ("video1",
    { id := "video1", title := "Love Video",
      description := "Romantic cinematic AI video", type := "video",
      demo_url := "https://drive.google.com/uc?export=download&id=1ZrAjxl-iwc_0sKUi1UHqu_NPSY3Xts5B",
      deliver_url := "https://drive.google.com/uc?export=download&id=1Yc3mFUTAJ0Dnch5ZQxHLgK8Rza1zowlc" }),
   ("video2",
    { id := "video2", title := "Alone Human Video",
      description := "Emotional AI cinematic scene", type := "video",
      demo_url := "https://drive.google.com/uc?export=download&id=1ZrAjxl-iwc_0sKUi1UHqu_NPSY3Xts5B",
      deliver_url := "https://drive.google.com/uc?export=download&id=1cbXn5BvCe-pCwWNCYv0xWVv6ndnGUcr3" }),
   ("video3",
    { id := "video3", title := "Planet Video",
      description := "Epic AI space cinematic video", type := "video",
      demo_url := "https://drive.google.com/uc?export=download&id=1ZrAjxl-iwc_0sKUi1UHqu_NPSY3Xts5B",
      deliver_url := "https://drive.google.com/uc?export=download&id=1OmvHHlB-eYsIYV9XEES15B6fScMyEe3d" })]

/-- The orders table, a list of rows. -/
abbrev Store := List OrderRec

/-- `session.query(Order).filter_by(order_id=oid).first()`. -/
def get_order_db (st : Store) (oid : String) : Option OrderRec :=
  st.find? (fun o => o.order_id == oid)

/-- Apply `f` to every row whose primary key equals `oid` (the table has
at most one such row). -/
def setOrder (st : Store) (oid : String) (f : OrderRec → OrderRec) : Store :=
  st.map (fun o => if o.order_id == oid then f o else o)

/-- Outbound side effects observable to the buyer or the log. -/
inductive Effect where
  | sendDocument (chat_id : Int) (url : String) (caption : String)
  | sendText (chat_id : Int) (text : String)
  | reconWarning (order_id : String)
deriving DecidableEq

/-- `generate_order_id`: the wall clock in milliseconds formatted as
`ORD<ms>`. -/
def generate_order_id (tms : Nat) : String := "ORD" ++ toString tms

/-- `create_order_db(user_id, pack_id)`: inserts a fresh pending row.
The primary-key constraint makes the commit raise when the generated id
already exists; that exception propagates to the caller. -/
inductive CreateError where
  | duplicateOrderId
deriving DecidableEq

/-- `create_order_db`: price defaults to 1.0 when the pack id is absent
from PRICES; the new row starts `pending` with empty invoice, paid_at
and tx_info. -/
def create_order_db (st : Store) (user_id : Int) (pack_id : String)
    (tms now : Nat) : Except CreateError (OrderRec × Store) :=
  let oid := generate_order_id tms
  let price := (lookup PRICES pack_id).getD 1
  let o : OrderRec :=
    { order_id := oid, user_id := user_id, product_id := pack_id,
      price := price, currency := "USDT", status := "pending",
      invoice := none, created_at := now, paid_at := none, tx_info := none }
  if (get_order_db st oid).isSome then .error .duplicateOrderId
  else .ok (o, st ++ [o])

/-- `update_order_invoice_db(order_id, invoice_obj)`: overwrite the
invoice column; `none` result when the row is absent. -/
def update_order_invoice_db (st : Store) (oid : String) (inv : Invoice) :
    Option Bool × Store :=
  match get_order_db st oid with
  | none => (none, st)
  | some _ => (some true, setOrder st oid (fun o => { o with invoice := some inv }))

/-- `mark_order_paid_db(order_id, tx_info)`: unconditionally sets
status to "paid", stamps paid_at with the current time, overwrites
tx_info, then attempts delivery of the pack document (or a plain
confirmation text when the product id is unknown). -/
def mark_order_paid_db (st : Store) (oid : String) (tx : Option TxInfo)
    (now : Nat) : Bool × Store × List Effect :=
  match get_order_db st oid with
  | none => (false, st, [])
  | some o =>
    let st' := setOrder st oid
      (fun x => { x with status := "paid", paid_at := some now, tx_info := tx })
    let effs :=
      match lookup PACKS o.product_id with
      | some p =>
        [Effect.sendDocument o.user_id p.deliver_url ("Here is your pack: " ++ p.title)]
      | none => [Effect.sendText o.user_id "✅ Payment confirmed. Your file is ready."]
    (true, st', effs)

/-- Python `a or b` on string-valued dict entries: None and the empty
string are falsy. -/
def pyOrS (a b : Option String) : Option String :=
  match a with
  | some s => if s = "" then b else some s
  | none => b

/-- Python truthiness of an optional string. -/
def truthyS (a : Option String) : Bool :=
  match a with
  | some s => s != ""
  | none => false

/-- Python `a or b` on numeric dict entries: None and 0 are falsy. -/
def pyOrQ (a b : Option ℚ) : Option ℚ :=
  match a with
  | some x => if x = 0 then b else some x
  | none => b

/-- ASCII lowercasing, for `str(status).lower()`. -/
def strLower (s : String) : String := String.mk (s.data.map Char.toLower)

/-- `str(x)` on an optional string: None prints as "None". -/
def pyStr (a : Option String) : String :=
  match a with
  | some s => s
  | none => "None"

/-- `create_invoice_nowpayments_db(order)`: with no API key configured, a
local placeholder invoice; with a key, the provider response when the call
succeeds (`providerResp = some data`), or the fallback placeholder on any
provider error (`providerResp = none`). The result is always recorded on
the order via `update_order_invoice_db`. -/
def create_invoice_nowpayments_db (apiKey : Option String) (publicUrl : String)
    (providerResp : Option Invoice) (st : Store) (order : OrderRec) :
    Invoice × Store :=
  match apiKey with
  | none =>
    let fake : Invoice :=
      { id := some ("fake-inv-" ++ order.order_id),
        pay_url := some (publicUrl ++ "/pay/" ++ order.order_id),
        status := some "waiting",
        price_amount := some order.price,
        price_currency := some order.currency }
    (fake, (update_order_invoice_db st order.order_id fake).2)
  | some _ =>
    match providerResp with
    | some data => (data, (update_order_invoice_db st order.order_id data).2)
    | none =>
      let fake : Invoice :=
        { id := some ("fallback-inv-" ++ order.order_id),
          pay_url := some (publicUrl ++ "/pay/" ++ order.order_id),
          status := some "waiting",
          price_amount := some order.price,
          price_currency := some order.currency }
      (fake, (update_order_invoice_db st order.order_id fake).2)

/-- Outcome of a handled callback, abstracting the text replies of
`handle_update`. -/
inductive Reply where
  | mainMenu
  | productNotFound
  | orderCreated (order_id : String)
  | createFailed
  | cancelled (order_id : String)
  | cannotCancel
  | orderNotFound
  | invoiceCreated (pay_url : String)
  | newInvoice (pay_url : String)
  | alreadyPaid (order_id : String)
  | notDetected
deriving DecidableEq

/-- The `buy:` branch of `handle_update`: reject ids absent from PACKS,
otherwise `create_order_db(chat_id, pid)`. An exception from the insert
is caught by the top-level handler (no state change). -/
def buyOp (st : Store) (chat_id : Int) (pid : String) (tms now : Nat) :
    Store × Reply :=
  if (lookup PACKS pid).isNone then (st, .productNotFound)
  else
    match create_order_db st chat_id pid tms now with
    | .error _ => (st, .createFailed)
    | .ok (o, st') => (st', .orderCreated o.order_id)

/-- The `cancel:` branch of `handle_update`: ownership check first, then
a re-query and the status guard `dbo.status == "pending"`. -/
def cancelOp (st : Store) (chat_id : Int) (oid : String) : Store × Reply :=
  match get_order_db st oid with
  | some o =>
    if o.user_id = chat_id then
      match get_order_db st oid with
      | some dbo =>
        if dbo.status = "pending" then
          (setOrder st oid (fun x => { x with status := "cancelled" }), .cancelled oid)
        else (st, .cannotCancel)
      | none => (st, .cannotCancel)
    else (st, .mainMenu)
  | none => (st, .mainMenu)

/-- The `pay_url or invoice_url or url or fallback` chain. -/
def payUrlOf (inv : Invoice) (publicUrl oid : String) : String :=
  (pyOrS (pyOrS (pyOrS inv.pay_url inv.invoice_url) inv.url)
    (some (publicUrl ++ "/pay/" ++ oid))).getD ""

/-- The `pay_now:` branch of `handle_update`. -/
def payNowOp (apiKey : Option String) (publicUrl : String)
    (providerResp : Option Invoice) (st : Store) (oid : String) :
    Store × Reply :=
  match get_order_db st oid with
  | none => (st, .orderNotFound)
  | some order =>
    let r := create_invoice_nowpayments_db apiKey publicUrl providerResp st order
    (r.2, .invoiceCreated (payUrlOf r.1 publicUrl oid))

/-- The `retry:` branch of `handle_update`. -/
def retryOp (apiKey : Option String) (publicUrl : String)
    (providerResp : Option Invoice) (st : Store) (oid : String) :
    Store × Reply :=
  match get_order_db st oid with
  | none => (st, .orderNotFound)
  | some order =>
    let r := create_invoice_nowpayments_db apiKey publicUrl providerResp st order
    (r.2, .newInvoice (payUrlOf r.1 publicUrl oid))

/-- The `check_paid:` branch of `handle_update`: marks paid (with the
stored invoice as tx_info) exactly when the order status is "paid" or
the stored invoice status is the string "paid". The requesting chat id
is used only for replies, never checked against the order owner. -/
def checkPaidOp (st : Store) (chat_id : Int) (oid : String) (now : Nat) :
    Store × List Effect × Reply :=
  match get_order_db st oid with
  | none => (st, [], .orderNotFound)
  | some o =>
    if o.status = "paid" ∨ (o.invoice.getD emptyInvoice).status = some "paid" then
      let r := mark_order_paid_db st oid
        (some (TxInfo.fromInvoice (o.invoice.getD emptyInvoice))) now
      (r.2.1, r.2.2, .alreadyPaid oid)
    else (st, [], .notDetected)

/-- Response of the `/nowpayments_webhook` route. -/
inductive WebhookResp where
  | invalidSignature
  | noOrderId
  | okPaid
  | okStatus (status : Option String)
deriving DecidableEq

/-- Webhook order-id extraction: `order_id or orderId or invoice.order_id
or purchase_id`. -/
def webhookOrderId (data : Notification) : Option String :=
  pyOrS (pyOrS (pyOrS data.order_id data.orderId)
    ((data.invoice.getD emptyInvoice).order_id)) data.purchase_id

/-- Webhook status extraction: `status or payment_status or
invoice.status`. -/
def webhookStatus (data : Notification) : Option String :=
  pyOrS (pyOrS data.status data.payment_status)
    ((data.invoice.getD emptyInvoice).status)

/-- Webhook paid-amount extraction: `price_amount or pay_amount or
invoice.price_amount`. -/
def webhookPayAmount (data : Notification) : Option ℚ :=
  pyOrQ (pyOrQ data.price_amount data.pay_amount)
    ((data.invoice.getD emptyInvoice).price_amount)

/-- The accepted-paid status set of the webhook. -/
def paidStatuses : List String := ["finished", "paid", "success", "confirmed"]

/-- `str(status).lower() in ("finished", "paid", "success", "confirmed")`. -/
def isPaidStatus (status : Option String) : Bool :=
  paidStatuses.contains (strLower (pyStr status))

/-- The signature gate of the webhook: verification happens (and can
fail) only when both the configured secret and the received header are
truthy; with the secret or the header missing or empty, the request is
treated as valid. -/
def webhookVerifyFails (hmacHex : String → Notification → String)
    (ipnSecret receivedSig : Option String) (data : Notification) : Bool :=
  match ipnSecret, receivedSig with
  | some sec, some sig =>
    if sec ≠ "" ∧ sig ≠ "" then hmacHex sec data != sig else false
  | _, _ => false

/-- The reconciliation-warning log line of the webhook: emitted when the
order exists, a paid amount is extractable, and it is below 99 percent
of the quoted price. -/
def webhookWarnEffs (data : Notification) (st : Store) (oid : String) :
    List Effect :=
  match get_order_db st oid with
  | some o =>
    match webhookPayAmount data with
    | some a =>
      if a < o.price * (99 / 100) then [Effect.reconWarning oid] else []
    | none => []
  | none => []

/-- `/nowpayments_webhook`. `hmacHex sec data` stands for the HMAC-SHA512
hex digest of the sorted-key compact JSON serialization of the body under
secret `sec`; the handler is parametric in this primitive. -/
def nowpayments_webhook (hmacHex : String → Notification → String)
    (ipnSecret receivedSig : Option String) (data : Notification)
    (st : Store) (now : Nat) : Store × List Effect × WebhookResp :=
  if webhookVerifyFails hmacHex ipnSecret receivedSig data then
    (st, [], .invalidSignature)
  else if ¬ truthyS (webhookOrderId data) then (st, [], .noOrderId)
  else if isPaidStatus (webhookStatus data) then
    let r := mark_order_paid_db st ((webhookOrderId data).getD "")
      (some (.fromNotification data)) now
    (r.2.1, webhookWarnEffs data st ((webhookOrderId data).getD "") ++ r.2.2, .okPaid)
  else
    ((update_order_invoice_db st ((webhookOrderId data).getD "")
        { status := webhookStatus data }).2,
      [], .okStatus (webhookStatus data))

/-- Response of `/pay_simulate/<order_id>`. -/
inductive SimResp where
  | notFound404
  | okSimulated
deriving DecidableEq

/-- `/pay_simulate/<order_id>`: marks the order paid with a simulated
payload whenever the order exists, with no status precondition. -/
def pay_simulate (st : Store) (oid : String) (now : Nat) :
    Store × List Effect × SimResp :=
  match get_order_db st oid with
  | none => (st, [], .notFound404)
  | some _ =>
    let r := mark_order_paid_db st oid (some (.fromSim oid)) now
    (r.2.1, r.2.2, .okSimulated)

/-- Every state-mutating entry point of the system, with its external
inputs. -/
inductive Step where
  | buy (chat_id : Int) (pid : String) (tms now : Nat)
  | cancel (chat_id : Int) (oid : String)
  | payNow (apiKey : Option String) (publicUrl : String)
      (providerResp : Option Invoice) (oid : String)
  | retry (apiKey : Option String) (publicUrl : String)
      (providerResp : Option Invoice) (oid : String)
  | checkPaid (chat_id : Int) (oid : String) (now : Nat)
  | webhook (hmacHex : String → Notification → String)
      (ipnSecret receivedSig : Option String) (data : Notification) (now : Nat)
  | paySim (oid : String) (now : Nat)

/-- The store after one entry point runs. -/
def applyStep (st : Store) : Step → Store
  | .buy c p tms now => (buyOp st c p tms now).1
  | .cancel c oid => (cancelOp st c oid).1
  | .payNow k u r oid => (payNowOp k u r st oid).1
  | .retry k u r oid => (retryOp k u r st oid).1
  | .checkPaid c oid now => (checkPaidOp st c oid now).1
  | .webhook h sec sig data now => (nowpayments_webhook h sec sig data st now).1
  | .paySim oid now => (pay_simulate st oid now).1

/-- Stores reachable from the empty table through the entry points. -/
inductive Reachable : Store → Prop where
  | nil : Reachable []
  | step (st : Store) (s : Step) : Reachable st → Reachable (applyStep st s)

/-- A sample stored order, used to instantiate theorems at concrete
inputs. -/
def mkOrder (oid : String) (uid : Int) (pid : String) (price : ℚ)
    (status : String) (inv : Option Invoice) (paidAt : Option Nat) : OrderRec :=
  { order_id := oid, user_id := uid, product_id := pid, price := price,
    currency := "USDT", status := status, invoice := inv, created_at := 50,
    paid_at := paidAt, tx_info := none }

/-- The row inserted by `create_order_db` for the given inputs. -/
def newOrder (chat : Int) (pid : String) (tms now : Nat) : OrderRec :=
  { order_id := generate_order_id tms, user_id := chat, product_id := pid,
    price := (lookup PRICES pid).getD 1, currency := "USDT", status := "pending",
    invoice := none, created_at := now, paid_at := none, tx_info := none }

/-- A found row carries the looked-up key. -/
theorem get_order_db_key {st : Store} {oid : String} {o : OrderRec}
    (ho : get_order_db st oid = some o) : o.order_id = oid := by
  unfold get_order_db at ho
  have h2 := List.find?_some ho
  simpa using h2

/-- A found row is a member of the table. -/
theorem get_order_db_mem {st : Store} {oid : String} {o : OrderRec}
    (ho : get_order_db st oid = some o) : o ∈ st := by
  unfold get_order_db at ho
  exact List.mem_of_find?_eq_some ho

/-- Rows updated through the primary key keep their lookup behaviour:
finding in the updated table is finding in the old table and applying
the per-row update, provided the update preserves the key. -/
theorem get_order_db_setOrder (st : Store) (tid oid : String)
    (f : OrderRec → OrderRec) (hf : ∀ x, (f x).order_id = x.order_id) :
    get_order_db (setOrder st tid f) oid =
      (get_order_db st oid).map (fun o => if o.order_id == tid then f o else o) := by
  unfold get_order_db setOrder
  rw [List.find?_map]
  have hp : ((fun o : OrderRec => o.order_id == oid) ∘
      (fun o => if o.order_id == tid then f o else o)) =
      (fun o : OrderRec => o.order_id == oid) := by
    funext x
    by_cases h : (x.order_id == tid) = true
    · simp [Function.comp, h, hf]
    · simp [Function.comp, h]
  rw [hp]

/-- Updating through the key of a found row yields the updated row. -/
theorem get_order_db_setOrder_self {st : Store} {oid : String} {o : OrderRec}
    (f : OrderRec → OrderRec) (hf : ∀ x, (f x).order_id = x.order_id)
    (ho : get_order_db st oid = some o) :
    get_order_db (setOrder st oid f) oid = some (f o) := by
  rw [get_order_db_setOrder st oid oid f hf, ho]
  have hid : (o.order_id == oid) = true := by simp [get_order_db_key ho]
  simp only [Option.map_some']
  rw [if_pos hid]

/-- A found row is still found after appending rows. -/
theorem get_order_db_append {st : Store} {oid : String} {o : OrderRec}
    (l : Store) (ho : get_order_db st oid = some o) :
    get_order_db (st ++ l) oid = some o := by
  unfold get_order_db at *
  rw [List.find?_append, ho]
  rfl

/-- A paid row stays paid under any key-preserving per-row update that
either preserves the status or sets it to paid. -/
theorem paid_stays_setOrder {st : Store} {tid oid : String} {o : OrderRec}
    (f : OrderRec → OrderRec) (hf : ∀ x, (f x).order_id = x.order_id)
    (hfs : ∀ x, x.status = "paid" → (f x).status = "paid")
    (ho : get_order_db st oid = some o) (hp : o.status = "paid") :
    ∃ o', get_order_db (setOrder st tid f) oid = some o' ∧ o'.status = "paid" := by
  rw [get_order_db_setOrder st tid oid f hf, ho]
  by_cases h : (o.order_id == tid) = true
  · exact ⟨f o, by simp only [Option.map_some']; rw [if_pos h], hfs o hp⟩
  · exact ⟨o, by simp only [Option.map_some']; rw [if_neg h], hp⟩

/-- A paid row stays paid under `mark_order_paid_db`. -/
theorem paid_stays_mark {st : Store} {tid oid : String} {o : OrderRec}
    {tx : Option TxInfo} {now : Nat}
    (ho : get_order_db st oid = some o) (hp : o.status = "paid") :
    ∃ o', get_order_db (mark_order_paid_db st tid tx now).2.1 oid = some o' ∧
      o'.status = "paid" := by
  unfold mark_order_paid_db
  split
  · exact ⟨o, ho, hp⟩
  · exact paid_stays_setOrder _ (fun x => rfl) (fun x _ => rfl) ho hp

/-- A paid row stays paid under `update_order_invoice_db`. -/
theorem paid_stays_update {st : Store} {tid oid : String} {o : OrderRec}
    {inv : Invoice}
    (ho : get_order_db st oid = some o) (hp : o.status = "paid") :
    ∃ o', get_order_db (update_order_invoice_db st tid inv).2 oid = some o' ∧
      o'.status = "paid" := by
  unfold update_order_invoice_db
  split
  · exact ⟨o, ho, hp⟩
  · exact paid_stays_setOrder _ (fun x => rfl) (fun x h => h) ho hp

/-- The status strings that actually occur in the code. -/
def goodStatus (s : String) : Prop :=
  s = "pending" ∨ s = "paid" ∨ s = "cancelled"

/-- Every row of the table has one of the three statuses the code
writes. -/
def StoreOK (st : Store) : Prop := ∀ o ∈ st, goodStatus o.status

theorem storeOK_setOrder {st : Store} {tid : String} {f : OrderRec → OrderRec}
    (hst : StoreOK st)
    (hf : ∀ x, goodStatus x.status → goodStatus (f x).status) :
    StoreOK (setOrder st tid f) := by
  intro o ho
  rcases List.mem_map.1 ho with ⟨x, hx, rfl⟩
  by_cases h : (x.order_id == tid) = true
  · rw [if_pos h]
    exact hf x (hst x hx)
  · rw [if_neg h]
    exact hst x hx

theorem storeOK_mark {st : Store} {oid : String} {tx : Option TxInfo} {now : Nat}
    (hst : StoreOK st) : StoreOK (mark_order_paid_db st oid tx now).2.1 := by
  unfold mark_order_paid_db
  split
  · exact hst
  · exact storeOK_setOrder hst (fun x _ => Or.inr (Or.inl rfl))

theorem storeOK_update {st : Store} {oid : String} {inv : Invoice}
    (hst : StoreOK st) : StoreOK (update_order_invoice_db st oid inv).2 := by
  unfold update_order_invoice_db
  split
  · exact hst
  · exact storeOK_setOrder hst (fun x h => h)

theorem storeOK_create_invoice {apiKey : Option String} {publicUrl : String}
    {resp : Option Invoice} {st : Store} {order : OrderRec}
    (hst : StoreOK st) :
    StoreOK (create_invoice_nowpayments_db apiKey publicUrl resp st order).2 := by
  unfold create_invoice_nowpayments_db
  split
  · exact storeOK_update hst
  · split
    · exact storeOK_update hst
    · exact storeOK_update hst

theorem storeOK_create_order {st : Store} {user : Int} {pid : String}
    {tms now : Nat} {o : OrderRec} {st' : Store} (hst : StoreOK st)
    (h : create_order_db st user pid tms now = .ok (o, st')) : StoreOK st' := by
  simp only [create_order_db] at h
  split at h
  · cases h
  · rw [Except.ok.injEq, Prod.mk.injEq] at h
    rcases h with ⟨_, h2⟩
    subst h2
    intro x hx
    rcases List.mem_append.1 hx with hx | hx
    · exact hst x hx
    · rcases List.mem_singleton.1 hx with rfl
      exact Or.inl rfl

theorem storeOK_buy {st : Store} {c : Int} {p : String} {tms now : Nat}
    (hst : StoreOK st) : StoreOK (buyOp st c p tms now).1 := by
  unfold buyOp
  split
  · exact hst
  · split
    · exact hst
    · rename_i o st' heq
      exact storeOK_create_order hst heq

theorem storeOK_cancel {st : Store} {c : Int} {oid : String}
    (hst : StoreOK st) : StoreOK (cancelOp st c oid).1 := by
  unfold cancelOp
  split
  · split
    · split
      · split
        · exact storeOK_setOrder hst (fun x _ => Or.inr (Or.inr rfl))
        · exact hst
      · exact hst
    · exact hst
  · exact hst

theorem storeOK_payNow {apiKey : Option String} {publicUrl : String}
    {resp : Option Invoice} {st : Store} {oid : String}
    (hst : StoreOK st) : StoreOK (payNowOp apiKey publicUrl resp st oid).1 := by
  unfold payNowOp
  split
  · exact hst
  · exact storeOK_create_invoice hst

theorem storeOK_retry {apiKey : Option String} {publicUrl : String}
    {resp : Option Invoice} {st : Store} {oid : String}
    (hst : StoreOK st) : StoreOK (retryOp apiKey publicUrl resp st oid).1 := by
  unfold retryOp
  split
  · exact hst
  · exact storeOK_create_invoice hst

theorem storeOK_checkPaid {st : Store} {c : Int} {oid : String} {now : Nat}
    (hst : StoreOK st) : StoreOK (checkPaidOp st c oid now).1 := by
  unfold checkPaidOp
  split
  · exact hst
  · split
    · exact storeOK_mark hst
    · exact hst

theorem storeOK_webhook {h : String → Notification → String}
    {sec sig : Option String} {data : Notification} {st : Store} {now : Nat}
    (hst : StoreOK st) :
    StoreOK (nowpayments_webhook h sec sig data st now).1 := by
  unfold nowpayments_webhook
  split
  · exact hst
  · split
    · exact hst
    · split
      · exact storeOK_mark hst
      · exact storeOK_update hst

theorem storeOK_paySim {st : Store} {oid : String} {now : Nat}
    (hst : StoreOK st) : StoreOK (pay_simulate st oid now).1 := by
  unfold pay_simulate
  split
  · exact hst
  · exact storeOK_mark hst

/-- Status invariant: the statuses of every reachable table are among
pending, paid, cancelled — in particular the string "invoiced" is never
stored. -/
theorem reachable_storeOK {st : Store} (h : Reachable st) : StoreOK st := by
  induction h with
  | nil => intro o ho; cases ho
  | step st s _ ih =>
    cases s with
    | buy c p tms now => exact storeOK_buy ih
    | cancel c oid => exact storeOK_cancel ih
    | payNow k u r oid => exact storeOK_payNow ih
    | retry k u r oid => exact storeOK_retry ih
    | checkPaid c oid now => exact storeOK_checkPaid ih
    | webhook h2 sec sig data now => exact storeOK_webhook ih
    | paySim oid now => exact storeOK_paySim ih

/-- On a found order, `mark_order_paid_db` reports success, rewrites the
row and attempts one delivery. -/
theorem mark_order_paid_db_found {st : Store} {oid : String} {o : OrderRec}
    (tx : Option TxInfo) (now : Nat) (ho : get_order_db st oid = some o) :
    mark_order_paid_db st oid tx now =
      (true,
       setOrder st oid
         (fun x => { x with status := "paid", paid_at := some now, tx_info := tx }),
       match lookup PACKS o.product_id with
       | some p =>
         [Effect.sendDocument o.user_id p.deliver_url ("Here is your pack: " ++ p.title)]
       | none => [Effect.sendText o.user_id "✅ Payment confirmed. Your file is ready."]) := by
  unfold mark_order_paid_db
  rw [ho]

/-- On a found order, the delivery attempt of `mark_order_paid_db` is
never empty. -/
theorem mark_order_paid_db_delivers {st : Store} {oid : String} {o : OrderRec}
    (tx : Option TxInfo) (now : Nat) (ho : get_order_db st oid = some o) :
    (mark_order_paid_db st oid tx now).2.2 ≠ [] := by
  rw [mark_order_paid_db_found tx now ho]
  dsimp only
  split <;> simp

/-- On a found order, `mark_order_paid_db` leaves the row with status
paid, paid_at stamped to the current time, and tx_info replaced. -/
theorem mark_order_paid_db_row {st : Store} {oid : String} {o : OrderRec}
    (tx : Option TxInfo) (now : Nat) (ho : get_order_db st oid = some o) :
    get_order_db (mark_order_paid_db st oid tx now).2.1 oid =
      some { o with status := "paid", paid_at := some now, tx_info := tx } := by
  rw [mark_order_paid_db_found tx now ho]
  exact get_order_db_setOrder_self _ (fun x => rfl) ho

/-- C1 (counterexample). The claim says a duplicate paid notification on
an already-paid order leaves paid_at unchanged and does not trigger
delivery again. On an order paid at time 100, a second `finished`
notification at time 200 overwrites paid_at to 200 and emits a fresh
delivery attempt. -/
theorem C1_counterexample :
    (get_order_db (nowpayments_webhook (fun _ _ => "sig") none none
        { order_id := some "ORD1", status := some "finished" }
        [mkOrder "ORD1" 7 "face_pack" 10 "paid" none (some 100)] 200).1
        "ORD1").map OrderRec.paid_at = some (some 200) ∧
    (nowpayments_webhook (fun _ _ => "sig") none none
        { order_id := some "ORD1", status := some "finished" }
        [mkOrder "ORD1" 7 "face_pack" 10 "paid" none (some 100)] 200).2.1 ≠ [] := by
  with_unfolding_all decide

/-- C1 (amended): re-applying the paid transition to an already-paid
order reports success and leaves the status "paid", but paid_at is
re-stamped to the current time, tx_info is overwritten with the new
payload, and delivery is re-attempted; paid_at is written on every
confirmation, not exactly once. -/
theorem C1_confirm_paid_overwrites (st : Store) (oid : String) (o : OrderRec)
    (tx : Option TxInfo) (now : Nat)
    (ho : get_order_db st oid = some o) (hpaid : o.status = "paid") :
    (mark_order_paid_db st oid tx now).1 = true ∧
    get_order_db (mark_order_paid_db st oid tx now).2.1 oid =
      some { o with status := "paid", paid_at := some now, tx_info := tx } ∧
    (mark_order_paid_db st oid tx now).2.2 ≠ [] := by
  refine ⟨?_, mark_order_paid_db_row tx now ho, mark_order_paid_db_delivers tx now ho⟩
  rw [mark_order_paid_db_found tx now ho]

/-- C1 (witness): the amended statement at a concrete already-paid
order. -/
theorem C1_witness :
    (mark_order_paid_db [mkOrder "ORD1" 7 "face_pack" 10 "paid" none (some 100)]
        "ORD1" (some (TxInfo.fromSim "ORD1")) 200).1 = true ∧
    get_order_db (mark_order_paid_db [mkOrder "ORD1" 7 "face_pack" 10 "paid" none (some 100)]
        "ORD1" (some (TxInfo.fromSim "ORD1")) 200).2.1 "ORD1" =
      some { mkOrder "ORD1" 7 "face_pack" 10 "paid" none (some 100) with
              status := "paid", paid_at := some 200,
              tx_info := some (TxInfo.fromSim "ORD1") } ∧
    (mark_order_paid_db [mkOrder "ORD1" 7 "face_pack" 10 "paid" none (some 100)]
        "ORD1" (some (TxInfo.fromSim "ORD1")) 200).2.2 ≠ [] :=
  C1_confirm_paid_overwrites _ "ORD1" _ _ 200 (by with_unfolding_all decide) rfl

/-- A paid row stays paid under `create_invoice_nowpayments_db`. -/
theorem paid_stays_create_invoice {apiKey : Option String} {publicUrl : String}
    {resp : Option Invoice} {st : Store} {order : OrderRec} {oid : String}
    {o : OrderRec} (ho : get_order_db st oid = some o) (hp : o.status = "paid") :
    ∃ o', get_order_db
        (create_invoice_nowpayments_db apiKey publicUrl resp st order).2 oid
        = some o' ∧ o'.status = "paid" := by
  unfold create_invoice_nowpayments_db
  split
  · exact paid_stays_update ho hp
  · split
    · exact paid_stays_update ho hp
    · exact paid_stays_update ho hp

/-- C2 (counterexample). The claim says an order in status cancelled can
never become paid. A `finished` provider notification for a cancelled
order drives it straight to paid. -/
theorem C2_counterexample :
    (get_order_db (nowpayments_webhook (fun _ _ => "sig") none none
        { order_id := some "ORD2", status := some "finished" }
        [mkOrder "ORD2" 7 "face_pack" 10 "cancelled" none none] 300).1
        "ORD2").map OrderRec.status = some "paid" := by
  with_unfolding_all decide

/-- C2 (amended): the status "paid" is terminal — no entry point (buy,
cancel, pay_now, retry, check_paid, provider webhook, pay-simulate)
moves an order found in status paid to any other status; "cancelled" is
not terminal, as the counterexample shows. -/
theorem C2_paid_terminal (st : Store) (s : Step) (oid : String) (o : OrderRec)
    (ho : get_order_db st oid = some o) (hp : o.status = "paid") :
    ∃ o', get_order_db (applyStep st s) oid = some o' ∧ o'.status = "paid" := by
  cases s with
  | buy c p tms now =>
    simp only [applyStep]
    unfold buyOp
    split
    · exact ⟨o, ho, hp⟩
    · split
      · exact ⟨o, ho, hp⟩
      · rename_i x st' heq
        simp only [create_order_db] at heq
        split at heq
        · cases heq
        · rw [Except.ok.injEq, Prod.mk.injEq] at heq
          rcases heq with ⟨_, h2⟩
          subst h2
          exact ⟨o, get_order_db_append _ ho, hp⟩
  | cancel c tid =>
    simp only [applyStep]
    unfold cancelOp
    split
    · rename_i dbo hdbo
      split
      · split
        · rename_i dbo2 hdbo2
          split
          · rename_i hpend
            by_cases h : (o.order_id == tid) = true
            · exfalso
              have hkey : o.order_id = oid := get_order_db_key ho
              have htid : tid = oid := by rw [← beq_iff_eq.mp h, hkey]
              injection hdbo2 with hdd
              rw [htid, ho] at hdbo
              injection hdbo with hdo
              rw [← hdd, ← hdo, hp] at hpend
              exact absurd hpend (by decide)
            · refine ⟨o, ?_, hp⟩
              dsimp only
              rw [get_order_db_setOrder st tid oid
                    (fun x => { x with status := "cancelled" }) (fun x => rfl), ho]
              simp only [Option.map_some']
              rw [if_neg h]
          · exact ⟨o, ho, hp⟩
        · exact ⟨o, ho, hp⟩
      · exact ⟨o, ho, hp⟩
    · exact ⟨o, ho, hp⟩
  | payNow k u r tid =>
    simp only [applyStep]
    unfold payNowOp
    split
    · exact ⟨o, ho, hp⟩
    · exact paid_stays_create_invoice ho hp
  | retry k u r tid =>
    simp only [applyStep]
    unfold retryOp
    split
    · exact ⟨o, ho, hp⟩
    · exact paid_stays_create_invoice ho hp
  | checkPaid c tid now =>
    simp only [applyStep]
    unfold checkPaidOp
    split
    · exact ⟨o, ho, hp⟩
    · split
      · exact paid_stays_mark ho hp
      · exact ⟨o, ho, hp⟩
  | webhook h2 sec sig data now =>
    simp only [applyStep]
    unfold nowpayments_webhook
    split
    · exact ⟨o, ho, hp⟩
    · split
      · exact ⟨o, ho, hp⟩
      · split
        · exact paid_stays_mark ho hp
        · exact paid_stays_update ho hp
  | paySim tid now =>
    simp only [applyStep]
    unfold pay_simulate
    split
    · exact ⟨o, ho, hp⟩
    · exact paid_stays_mark ho hp

/-- C2 (witness): the amended statement at a concrete paid order under a
cancel attempt. -/
theorem C2_witness :
    ∃ o', get_order_db
        (applyStep [mkOrder "ORD3" 7 "face_pack" 10 "paid" none (some 100)]
          (Step.cancel 7 "ORD3")) "ORD3" = some o' ∧ o'.status = "paid" :=
  C2_paid_terminal [mkOrder "ORD3" 7 "face_pack" 10 "paid" none (some 100)]
    (Step.cancel 7 "ORD3") "ORD3"
    (mkOrder "ORD3" 7 "face_pack" 10 "paid" none (some 100))
    (by with_unfolding_all decide) rfl

/-- C3 (counterexample). The claim says that with a shared secret
configured, every inbound notification is authenticated and verification
is skipped only when no secret is configured. With the secret configured
but the signature header absent, the handler skips verification and
mutates the order to paid. -/
theorem C3_counterexample :
    (get_order_db (nowpayments_webhook (fun _ _ => "realdigest") (some "topsecret")
        none { order_id := some "ORD4", status := some "finished" }
        [mkOrder "ORD4" 7 "face_pack" 10 "pending" none none] 300).1
        "ORD4").map OrderRec.status = some "paid" := by
  with_unfolding_all decide

/-- C3 (amended): when a nonempty shared secret is configured and a
nonempty signature header is present, a mismatch between the recomputed
HMAC and the header rejects the request with no state mutation and no
effects; verification is skipped not only when no secret is configured
but also whenever the signature header is missing or empty. -/
theorem C3_signature_mismatch_rejected
    (hmacHex : String → Notification → String) (sec sig : String)
    (data : Notification) (st : Store) (now : Nat)
    (hsec : sec ≠ "") (hsig : sig ≠ "") (hmm : hmacHex sec data ≠ sig) :
    nowpayments_webhook hmacHex (some sec) (some sig) data st now
      = (st, [], WebhookResp.invalidSignature) := by
  have hv : webhookVerifyFails hmacHex (some sec) (some sig) data = true := by
    simp only [webhookVerifyFails]
    rw [if_pos ⟨hsec, hsig⟩]
    simpa using hmm
  unfold nowpayments_webhook
  rw [if_pos hv]

/-- C3 (witness): the amended statement at a concrete mismatching
signature. -/
theorem C3_witness :
    nowpayments_webhook (fun _ _ => "realdigest") (some "topsecret") (some "bad")
      { order_id := some "ORD4", status := some "finished" }
      [mkOrder "ORD4" 7 "face_pack" 10 "pending" none none] 300
      = ([mkOrder "ORD4" 7 "face_pack" 10 "pending" none none], [],
         WebhookResp.invalidSignature) :=
  C3_signature_mismatch_rejected (fun _ _ => "realdigest") "topsecret" "bad"
    { order_id := some "ORD4", status := some "finished" }
    [mkOrder "ORD4" 7 "face_pack" 10 "pending" none none] 300
    (by decide) (by decide) (by decide)

/-- On a found row, `update_order_invoice_db` overwrites exactly the
invoice column. -/
theorem get_update_invoice {st : Store} {oid : String} {o : OrderRec}
    (inv : Invoice) (ho : get_order_db st oid = some o) :
    get_order_db (update_order_invoice_db st oid inv).2 oid
      = some { o with invoice := some inv } := by
  unfold update_order_invoice_db
  rw [ho]
  exact get_order_db_setOrder_self _ (fun x => rfl) ho

/-- Variant of `get_update_invoice` keyed through the primary key of the
found row itself. -/
theorem get_update_invoice_key {st : Store} {oid : String} {o : OrderRec}
    (inv : Invoice) (ho : get_order_db st oid = some o) :
    get_order_db (update_order_invoice_db st o.order_id inv).2 oid
      = some { o with invoice := some inv } := by
  have hkey : o.order_id = oid := get_order_db_key ho
  rw [hkey]
  have h2 := get_update_invoice inv ho
  rw [hkey] at h2
  exact h2

/-- `create_invoice_nowpayments_db` records the invoice it returns on
the order it was given. -/
theorem create_invoice_stores {apiKey : Option String} {publicUrl : String}
    {resp : Option Invoice} {st : Store} {oid : String} {o : OrderRec}
    (ho : get_order_db st oid = some o) :
    get_order_db (create_invoice_nowpayments_db apiKey publicUrl resp st o).2 oid
      = some { o with
          invoice := some (create_invoice_nowpayments_db apiKey publicUrl resp st o).1 } := by
  unfold create_invoice_nowpayments_db
  split
  · dsimp only
    exact get_update_invoice_key _ ho
  · split
    · dsimp only
      exact get_update_invoice_key _ ho
    · dsimp only
      exact get_update_invoice_key _ ho

/-- C4 (counterexample). The claim says pay_now/retry moves a pending
order to status "invoiced". After pay_now on a pending order, the status
is still "pending" — the code never writes an "invoiced" status. -/
theorem C4_counterexample :
    (get_order_db (payNowOp none "https://example.com" none
        [mkOrder "ORD5" 7 "face_pack" 10 "pending" none none] "ORD5").1
        "ORD5").map OrderRec.status = some "pending" := by
  with_unfolding_all decide

/-- C4 (amended): for every existing order, the pay_now and retry
intents call `create_invoice_nowpayments_db`, store the returned invoice
payload on the order (overwriting any prior invoice, latest wins), and
leave the status — and every other column — unchanged; no "invoiced"
status exists. -/
theorem C4_invoice_stored_status_unchanged (apiKey : Option String)
    (publicUrl : String) (resp : Option Invoice) (st : Store) (oid : String)
    (o : OrderRec) (ho : get_order_db st oid = some o) :
    get_order_db (payNowOp apiKey publicUrl resp st oid).1 oid
      = some { o with
          invoice := some (create_invoice_nowpayments_db apiKey publicUrl resp st o).1 } ∧
    get_order_db (retryOp apiKey publicUrl resp st oid).1 oid
      = some { o with
          invoice := some (create_invoice_nowpayments_db apiKey publicUrl resp st o).1 } := by
  constructor
  · unfold payNowOp
    rw [ho]
    exact create_invoice_stores ho
  · unfold retryOp
    rw [ho]
    exact create_invoice_stores ho

/-- C4 (witness): the amended statement at a concrete pending order with
no provider key, exercising the placeholder invoice path. -/
theorem C4_witness :
    get_order_db (payNowOp none "https://example.com" none
        [mkOrder "ORD5" 7 "face_pack" 10 "pending" none none] "ORD5").1 "ORD5"
      = some { mkOrder "ORD5" 7 "face_pack" 10 "pending" none none with
          invoice := some (create_invoice_nowpayments_db none "https://example.com"
            none [mkOrder "ORD5" 7 "face_pack" 10 "pending" none none]
            (mkOrder "ORD5" 7 "face_pack" 10 "pending" none none)).1 } ∧
    get_order_db (retryOp none "https://example.com" none
        [mkOrder "ORD5" 7 "face_pack" 10 "pending" none none] "ORD5").1 "ORD5"
      = some { mkOrder "ORD5" 7 "face_pack" 10 "pending" none none with
          invoice := some (create_invoice_nowpayments_db none "https://example.com"
            none [mkOrder "ORD5" 7 "face_pack" 10 "pending" none none]
            (mkOrder "ORD5" 7 "face_pack" 10 "pending" none none)).1 } :=
  C4_invoice_stored_status_unchanged none "https://example.com" none
    [mkOrder "ORD5" 7 "face_pack" 10 "pending" none none] "ORD5"
    (mkOrder "ORD5" 7 "face_pack" 10 "pending" none none)
    (by with_unfolding_all decide)

/-- C5 (confirmed): on every reachable store, a cancel by the owner
succeeds exactly when the status is pending (equivalently, pending or
invoiced, since the status "invoiced" never occurs); cancel on a paid
order is rejected with no change, and cancel on a cancelled order is an
idempotent no-op. -/
theorem C5_cancel_policy (st : Store) (hre : Reachable st) (oid : String)
    (o : OrderRec) (chat : Int)
    (ho : get_order_db st oid = some o) (hown : o.user_id = chat) :
    (((cancelOp st chat oid).2 = Reply.cancelled oid) ↔
      (o.status = "pending" ∨ o.status = "invoiced")) ∧
    (o.status = "paid" → cancelOp st chat oid = (st, Reply.cannotCancel)) ∧
    (o.status = "cancelled" → cancelOp st chat oid = (st, Reply.cannotCancel)) := by
  have hgood : goodStatus o.status := reachable_storeOK hre o (get_order_db_mem ho)
  have hcan : cancelOp st chat oid =
      if o.status = "pending" then
        (setOrder st oid (fun x => { x with status := "cancelled" }), Reply.cancelled oid)
      else (st, Reply.cannotCancel) := by
    unfold cancelOp
    split
    · rename_i dbo hdbo
      rw [ho] at hdbo
      injection hdbo with hdbo'
      subst hdbo'
      rw [if_pos hown]
    · rename_i hnone
      rw [ho] at hnone
      exact Option.noConfusion hnone
  refine ⟨?_, ?_, ?_⟩
  · by_cases hp : o.status = "pending"
    · rw [hcan, if_pos hp]
      simp [hp]
    · rw [hcan, if_neg hp]
      constructor
      · intro h
        exact absurd h (by simp)
      · intro h
        rcases h with h | h
        · exact absurd h hp
        · rcases hgood with hg | hg | hg
          · exact absurd hg hp
          · rw [hg] at h
            exact absurd h (by decide)
          · rw [hg] at h
            exact absurd h (by decide)
  · intro hp
    rw [hcan, if_neg (by rw [hp]; decide)]
  · intro hp
    rw [hcan, if_neg (by rw [hp]; decide)]

/-- C5 (witness): the statement at a concrete reachable store holding
one pending order owned by buyer 42, built by one buy step from the
empty store. -/
theorem C5_witness :
    (((cancelOp (applyStep [] (Step.buy 42 "face_pack" 5 6)) 42 "ORD5").2
        = Reply.cancelled "ORD5") ↔
      ((newOrder 42 "face_pack" 5 6).status = "pending" ∨
       (newOrder 42 "face_pack" 5 6).status = "invoiced")) ∧
    ((newOrder 42 "face_pack" 5 6).status = "paid" →
      cancelOp (applyStep [] (Step.buy 42 "face_pack" 5 6)) 42 "ORD5"
        = (applyStep [] (Step.buy 42 "face_pack" 5 6), Reply.cannotCancel)) ∧
    ((newOrder 42 "face_pack" 5 6).status = "cancelled" →
      cancelOp (applyStep [] (Step.buy 42 "face_pack" 5 6)) 42 "ORD5"
        = (applyStep [] (Step.buy 42 "face_pack" 5 6), Reply.cannotCancel)) :=
  C5_cancel_policy (applyStep [] (Step.buy 42 "face_pack" 5 6))
    (Reachable.step [] (Step.buy 42 "face_pack" 5 6) Reachable.nil) "ORD5"
    (newOrder 42 "face_pack" 5 6)
    42 (by with_unfolding_all decide) rfl

/-- C6 (counterexample). The claim says a check-paid request by a buyer
other than the owner is rejected with no mutation and no delivery. A
stranger polling check_paid on an order whose stored invoice says paid
drives the order to paid and emits the delivery. -/
theorem C6_counterexample :
    (get_order_db (checkPaidOp
        [mkOrder "ORD6" 1 "face_pack" 10 "pending" (some { status := some "paid" }) none]
        2 "ORD6" 500).1 "ORD6").map OrderRec.status = some "paid" ∧
    (checkPaidOp
        [mkOrder "ORD6" 1 "face_pack" 10 "pending" (some { status := some "paid" }) none]
        2 "ORD6" 500).2.1 ≠ [] := by
  with_unfolding_all decide

/-- C6 (amended): a cancel whose requesting chat id differs from the
stored owner is deflected to the main menu with no state change; the
check_paid branch, by contrast, performs no ownership check at all — its
outcome is identical for every requesting chat id. -/
theorem C6_owner_check (st : Store) (oid : String) (o : OrderRec) (chat : Int)
    (ho : get_order_db st oid = some o) (hdiff : o.user_id ≠ chat) :
    cancelOp st chat oid = (st, Reply.mainMenu) ∧
    ∀ c1 c2 : Int, ∀ now : Nat,
      checkPaidOp st c1 oid now = checkPaidOp st c2 oid now := by
  constructor
  · unfold cancelOp
    split
    · rename_i dbo hdbo
      rw [ho] at hdbo
      injection hdbo with h2
      subst h2
      rw [if_neg hdiff]
    · rfl
  · intro c1 c2 now
    rfl

/-- C6 (witness): the amended statement at a concrete pending order
owned by buyer 1 with a stranger (buyer 2) requesting the cancel. -/
theorem C6_witness :
    cancelOp [mkOrder "ORD6" 1 "face_pack" 10 "pending" none none] 2 "ORD6"
      = ([mkOrder "ORD6" 1 "face_pack" 10 "pending" none none], Reply.mainMenu) ∧
    ∀ c1 c2 : Int, ∀ now : Nat,
      checkPaidOp [mkOrder "ORD6" 1 "face_pack" 10 "pending" none none] c1 "ORD6" now
        = checkPaidOp [mkOrder "ORD6" 1 "face_pack" 10 "pending" none none] c2 "ORD6" now :=
  C6_owner_check [mkOrder "ORD6" 1 "face_pack" 10 "pending" none none] "ORD6"
    (mkOrder "ORD6" 1 "face_pack" 10 "pending" none none) 2
    (by with_unfolding_all decide) (by decide)

/-- A fresh key appended to the table is found as the appended row. -/
theorem get_order_db_append_new {st : Store} {oid : String} {x : OrderRec}
    (h : get_order_db st oid = none) (hx : x.order_id = oid) :
    get_order_db (st ++ [x]) oid = some x := by
  unfold get_order_db at *
  rw [List.find?_append, h]
  simp [hx]

/-- The successful path of the buy branch: with the pack present and the
generated id fresh, a pending order is appended with snapshot price. -/
theorem buyOp_ok (st : Store) (chat : Int) (pid : String) (tms now : Nat)
    (hpack : (lookup PACKS pid).isNone = false)
    (hfresh : get_order_db st (generate_order_id tms) = none) :
    ∃ st' o, buyOp st chat pid tms now = (st', Reply.orderCreated o.order_id) ∧
      get_order_db st' (generate_order_id tms) = some o ∧
      o.status = "pending" ∧ o.user_id = chat ∧ o.product_id = pid ∧
      o.price = (lookup PRICES pid).getD 1 ∧ o.created_at = now := by
  refine ⟨st ++ [newOrder chat pid tms now], newOrder chat pid tms now,
    ?_, ?_, rfl, rfl, rfl, rfl, rfl⟩
  · unfold buyOp
    rw [if_neg (by rw [hpack]; exact Bool.false_ne_true)]
    simp only [create_order_db, hfresh, Option.isSome_none, Bool.false_eq_true,
      if_false]
    rfl
  · exact get_order_db_append_new hfresh rfl

/-- C7 (confirmed): a buy intent whose product id is absent from the
catalog is rejected with no state change; for every product present in
the catalog, buy creates an order in status pending whose price is the
catalog price of that product at call time. -/
theorem C7_create_order (st : Store) (chat : Int) (pid : String) (tms now : Nat) :
    ((lookup PACKS pid).isNone = true →
      buyOp st chat pid tms now = (st, Reply.productNotFound)) ∧
    (∀ entry ∈ PACKS, entry.1 = pid →
      get_order_db st (generate_order_id tms) = none →
      ∃ st' o, buyOp st chat pid tms now = (st', Reply.orderCreated o.order_id) ∧
        get_order_db st' (generate_order_id tms) = some o ∧
        o.status = "pending" ∧ o.user_id = chat ∧ o.product_id = pid ∧
        lookup PRICES pid = some o.price ∧ o.created_at = now) := by
  constructor
  · intro hnone
    unfold buyOp
    rw [if_pos hnone]
  · intro entry hmem hkey hfresh
    have hcases : pid = "face_pack" ∨ pid = "love_pack" ∨ pid = "planets_pack" ∨
        pid = "video1" ∨ pid = "video2" ∨ pid = "video3" := by
      fin_cases hmem <;> rw [← hkey] <;> simp
    have hpack : (lookup PACKS pid).isNone = false := by
      rcases hcases with h|h|h|h|h|h <;> subst h <;> decide
    have hprice : lookup PRICES pid = some ((lookup PRICES pid).getD 1) := by
      rcases hcases with h|h|h|h|h|h <;> subst h <;> decide
    obtain ⟨st', o, h1, h2, h3, h4, h5, h6, h7⟩ :=
      buyOp_ok st chat pid tms now hpack hfresh
    refine ⟨st', o, h1, h2, h3, h4, h5, ?_, h7⟩
    rw [h6]
    exact hprice

/-- C7 (witness): an unknown product is rejected, and buying face_pack
from the empty store creates a pending order priced 10. -/
theorem C7_witness :
    (buyOp [] 42 "nope" 5 6 = ([], Reply.productNotFound)) ∧
    (∃ st' o, buyOp [] 42 "face_pack" 5 6 = (st', Reply.orderCreated o.order_id) ∧
      get_order_db st' (generate_order_id 5) = some o ∧
      o.status = "pending" ∧ o.user_id = 42 ∧ o.product_id = "face_pack" ∧
      lookup PRICES "face_pack" = some o.price ∧ o.created_at = 6) :=
  ⟨(C7_create_order [] 42 "nope" 5 6).1 (by decide),
   (C7_create_order [] 42 "face_pack" 5 6).2
     ("face_pack",
      { id := "face_pack", title := "Face Pack",
        description := "AI Faces Collection", type := "image",
        demo_url := "https://drive.google.com/uc?export=download&id=1BLOOQgUDGlsrz_gNS0z9aCcHdtD1L_-0",
        deliver_url := "https://drive.google.com/uc?export=download&id=1FY77eK4EIWMYP3UT37dP_q1Jt9smdPqx" })
     (by decide) rfl rfl⟩

/-- C8 (confirmed): a paid-status notification whose extractable paid
amount is strictly below 99 percent of the quoted price still drives the
order to paid — the webhook answers ok, logs the reconciliation warning,
and marks the order paid with the notification as tx_info. Stated with
no shared secret configured, so the signature gate is skipped. -/
theorem C8_underpayment_not_blocking (hmacHex : String → Notification → String)
    (st : Store) (oid : String) (o : OrderRec) (data : Notification)
    (now : Nat) (a : ℚ)
    (ho : get_order_db st oid = some o)
    (hoid : webhookOrderId data = some oid) (hne : oid ≠ "")
    (hpst : isPaidStatus (webhookStatus data) = true)
    (ha : webhookPayAmount data = some a)
    (hlow : a < o.price * (99 / 100)) :
    (nowpayments_webhook hmacHex none none data st now).2.2 = WebhookResp.okPaid ∧
    Effect.reconWarning oid ∈ (nowpayments_webhook hmacHex none none data st now).2.1 ∧
    get_order_db (nowpayments_webhook hmacHex none none data st now).1 oid
      = some { o with
          status := "paid", paid_at := some now,
          tx_info := some (TxInfo.fromNotification data) } := by
  have htr : truthyS (some oid) = true := by simp [truthyS, hne]
  have hweb : nowpayments_webhook hmacHex none none data st now =
      ((mark_order_paid_db st oid (some (.fromNotification data)) now).2.1,
       webhookWarnEffs data st oid ++
         (mark_order_paid_db st oid (some (.fromNotification data)) now).2.2,
       WebhookResp.okPaid) := by
    unfold nowpayments_webhook
    have hv : webhookVerifyFails hmacHex none none data = false := rfl
    rw [if_neg (by simp [hv])]
    rw [hoid]
    rw [if_neg (not_not_intro htr)]
    rw [if_pos hpst]
    rfl
  rw [hweb]
  have hwarn : webhookWarnEffs data st oid = [Effect.reconWarning oid] := by
    unfold webhookWarnEffs
    rw [ho, ha]
    show (if a < o.price * (99 / 100) then [Effect.reconWarning oid] else [])
      = [Effect.reconWarning oid]
    rw [if_pos hlow]
  refine ⟨rfl, ?_, mark_order_paid_db_row _ now ho⟩
  rw [hwarn]
  exact List.mem_append_left _ (List.mem_singleton_self _)

/-- C8 (witness): a `confirmed` notification for 5 USDT against a 10
USDT order — 5 is below 99 percent of 10 — is confirmed anyway. -/
theorem C8_witness :
    (nowpayments_webhook (fun _ _ => "sig") none none
        { order_id := some "ORD8", status := some "confirmed", price_amount := some 5 }
        [mkOrder "ORD8" 7 "face_pack" 10 "pending" none none] 600).2.2
      = WebhookResp.okPaid ∧
    Effect.reconWarning "ORD8" ∈ (nowpayments_webhook (fun _ _ => "sig") none none
        { order_id := some "ORD8", status := some "confirmed", price_amount := some 5 }
        [mkOrder "ORD8" 7 "face_pack" 10 "pending" none none] 600).2.1 ∧
    get_order_db (nowpayments_webhook (fun _ _ => "sig") none none
        { order_id := some "ORD8", status := some "confirmed", price_amount := some 5 }
        [mkOrder "ORD8" 7 "face_pack" 10 "pending" none none] 600).1 "ORD8"
      = some { mkOrder "ORD8" 7 "face_pack" 10 "pending" none none with
          status := "paid", paid_at := some 600,
          tx_info := some (TxInfo.fromNotification
            { order_id := some "ORD8", status := some "confirmed",
              price_amount := some 5 }) } :=
  C8_underpayment_not_blocking (fun _ _ => "sig")
    [mkOrder "ORD8" 7 "face_pack" 10 "pending" none none] "ORD8"
    (mkOrder "ORD8" 7 "face_pack" 10 "pending" none none)
    { order_id := some "ORD8", status := some "confirmed", price_amount := some 5 }
    600 5 (by with_unfolding_all decide) (by decide) (by decide) (by decide)
    (by decide) (by with_unfolding_all decide)

/-- C9 (code_bug): order ids are the wall-clock millisecond formatted as
ORD-number, so two create calls falling in the same millisecond generate
the same order id; the second insert then violates the primary key and
the create raises instead of producing a distinct id. Here two buys at
millisecond 123 by different buyers: the first creates ORD123, the
second fails with a duplicate id and creates nothing. -/
theorem C9_order_id_collision :
    (buyOp [] 1 "face_pack" 123 10).2 = Reply.orderCreated "ORD123" ∧
    buyOp (buyOp [] 1 "face_pack" 123 10).1 2 "face_pack" 123 10
      = ((buyOp [] 1 "face_pack" 123 10).1, Reply.createFailed) ∧
    create_order_db (buyOp [] 1 "face_pack" 123 10).1 2 "face_pack" 123 10
      = Except.error CreateError.duplicateOrderId := by
  refine ⟨?_, ?_, ?_⟩
  · with_unfolding_all decide
  · with_unfolding_all decide
  · with_unfolding_all rfl

/-- C10 (confirmed): the check_paid poll mutates nothing and delivers
nothing unless the order status is already the exact string "paid" or
the stored invoice status is the exact string "paid" — any other stored
invoice status (finished, confirmed, success, waiting, or none) leaves
the store untouched with a not-detected reply. -/
theorem C10_check_paid_exact_string (st : Store) (chat : Int) (oid : String)
    (o : OrderRec) (now : Nat)
    (ho : get_order_db st oid = some o)
    (hns : o.status ≠ "paid")
    (hni : (o.invoice.getD emptyInvoice).status ≠ some "paid") :
    checkPaidOp st chat oid now = (st, [], Reply.notDetected) := by
  unfold checkPaidOp
  split
  · rename_i hnone
    rw [ho] at hnone
    exact Option.noConfusion hnone
  · rename_i dbo hdbo
    rw [ho] at hdbo
    injection hdbo with h2
    subst h2
    rw [if_neg (not_or.mpr ⟨hns, hni⟩)]

/-- C10 (witness): an invoice recorded with provider status `finished`
does not drive the order to paid through the poll. -/
theorem C10_witness :
    checkPaidOp [mkOrder "ORD10" 1 "face_pack" 10 "pending"
        (some { status := some "finished" }) none] 1 "ORD10" 500
      = ([mkOrder "ORD10" 1 "face_pack" 10 "pending"
          (some { status := some "finished" }) none], [], Reply.notDetected) :=
  C10_check_paid_exact_string
    [mkOrder "ORD10" 1 "face_pack" 10 "pending" (some { status := some "finished" }) none]
    1 "ORD10"
    (mkOrder "ORD10" 1 "face_pack" 10 "pending" (some { status := some "finished" }) none)
    500 (by with_unfolding_all decide) (by decide) (by decide)

end MythicStore
